import Mathlib

/-
Verification of the JSON-RPC 2.0 client in src/testclient/a2a_client.py
(class JsonRpcClient) against its natural-language specification.

The embedding models:
  * JSON values as an inductive type `Json` (objects as association lists;
    a Python dict produced by json parsing has unique keys, and every
    lookup below consistently uses the first occurrence);
  * the response-processing pipeline of `JsonRpcClient.call`
    (a2a_client.py lines 89-138) as a pure function of the transport
    outcome, including the Python semantics of `in`, subscripting and
    `.get` on arbitrary parsed values (a `.get` on a non-dict raises
    AttributeError, `d[k]` on a list/str with a string key raises
    TypeError; these unhandled Python exceptions are modelled by the
    `uncaught` failure constructor, distinct from the four-kind error
    taxonomy of the spec);
  * `JsonRpcClient.notify` (lines 140-188) likewise;
  * the transport-ownership life cycle (__init__, _get_client, close,
    __aenter__, __aexit__, and the `finally` blocks of call/notify) as a
    small state machine over a world of open/closed transports;
  * id generation `str(uuid.uuid4())` (line 77) as the uuid4 algorithm of
    CPython's uuid module applied to a stream of 128-bit random draws
    (os.urandom is the only non-deterministic input, threaded as a
    parameter).
-/

/-- A parsed JSON document.  JSON null corresponds to Python `None`. -/
inductive Json where
  | null : Json
  | bool : Bool → Json
  | num : Int → Json
  | str : String → Json
  | arr : List Json → Json
  | obj : List (String × Json) → Json

/-- First-occurrence lookup in a parsed JSON object (a Python dict has
unique keys, so first-occurrence lookup agrees with dict lookup on every
value a JSON parser can produce). -/
def getField : List (String × Json) → String → Option Json
  | [], _ => none
  | (k, v) :: rest, key => if k = key then some v else getField rest key

/-- Python `d.get(key)` on a parsed JSON object: a missing key and a key
mapped to JSON null both yield Python `None`. -/
def pyGet (fs : List (String × Json)) (key : String) : Option Json :=
  match getField fs key with
  | some Json.null => none
  | some v => some v
  | none => none

def startsWithChars : List Char → List Char → Bool
  | [], _ => true
  | _ :: _, [] => false
  | a :: as, b :: bs => a == b && startsWithChars as bs

def hasSubstringChars (needle : List Char) : List Char → Bool
  | [] => needle.isEmpty
  | c :: rest => startsWithChars needle (c :: rest) || hasSubstringChars needle rest

/-- Python `key in j` for a string `key` and a parsed JSON value `j`:
key membership for a dict, element membership for a list (a string only
equals a string element), substring test for a string, and TypeError
(the value is not iterable / not a container) otherwise. -/
def pyContains (j : Json) (key : String) : Except String Bool :=
  match j with
  | Json.obj fields => Except.ok (fields.any (fun p => p.1 == key))
  | Json.arr xs => Except.ok (xs.any (fun e =>
      match e with
      | Json.str s => s == key
      | _ => false))
  | Json.str s => Except.ok (hasSubstringChars key.data s.data)
  | _ => Except.error "TypeError: argument is not iterable"

/-- Python `j[key]` for a string `key`: dict lookup (KeyError when the
key is absent), TypeError on every non-dict value. -/
def pySubscript (j : Json) (key : String) : Except String Json :=
  match j with
  | Json.obj fields =>
    match getField fields key with
    | some v => Except.ok v
    | none => Except.error "KeyError"
  | _ => Except.error "TypeError: value is not subscriptable by a string"

/-- Python `j.get(key)`: defined for dicts, AttributeError on every
other parsed value. -/
def pyAttrGet (j : Json) (key : String) : Except String (Option Json) :=
  match j with
  | Json.obj fields => Except.ok (pyGet fields key)
  | _ => Except.error "AttributeError"

/-- A JSON-RPC request id as supplied by the caller or generated by the
client: a string or an integer (a2a_client.py line 57). -/
inductive RequestId where
  | str : String → RequestId
  | num : Int → RequestId

/-- Python `response_data.get("id") != request_id` (a2a_client.py line
131), negated: `respId` is the Python value of `response_data.get("id")`
(None when missing or null), `reqId` the request id (never None at this
point).  Python equality makes `True == 1` and `False == 0`. -/
def idEq (respId : Option Json) (reqId : RequestId) : Bool :=
  match respId, reqId with
  | some (Json.str s), RequestId.str s2 => s == s2
  | some (Json.num n), RequestId.num n2 => n == n2
  | some (Json.bool b), RequestId.num n2 => (if b then (1 : Int) else 0) == n2
  | _, _ => false

/-- Failures surfaced by `call`/`notify`, named after the spec taxonomy:
`transportError` is httpx.RequestError (lines 103-108), `httpStatusError`
is httpx.HTTPStatusError (lines 96-102), `malformedResponse` is the
ValueError for an unparseable body (lines 116-117) carrying the raw body
text, `missingResult` is the ValueError for a missing result field (lines
128-129), `protocolError` is JsonRpcError (lines 119-126).  `uncaught`
models a Python exception (AttributeError/TypeError/KeyError) escaping
from `call` without being any of the four spec kinds. -/
inductive RpcFailure where
  | transportError : String → String → RpcFailure
  | httpStatusError : String → Nat → String → RpcFailure
  | malformedResponse : String → RpcFailure
  | missingResult : Json → RpcFailure
  | protocolError : Option Json → Option Json → Option Json → Option Json → RpcFailure
  | uncaught : String → RpcFailure

def RpcFailure.isProtocol : RpcFailure → Bool
  | RpcFailure.protocolError _ _ _ _ => true
  | _ => false

/-- The warning printed at a2a_client.py line 135 when the response id
does not equal the request id, modelled as a structured observability
event carrying the two ids. -/
structure IdWarning where
  responseId : Option Json
  requestId : RequestId

/-- Outcome of one `call`: the returned result or the raised failure,
plus the warnings emitted on the way. -/
structure CallResult where
  outcome : Except RpcFailure Json
  warnings : List IdWarning

def CallResult.raisedProtocol (r : CallResult) : Bool :=
  match r.outcome with
  | Except.error e => e.isProtocol
  | Except.ok _ => false

/-- An HTTP response as seen by the client: status, raw body text, and
the result of parsing the body as JSON (`none` models the ValueError
raised by `response.json()` on an unparseable body). -/
structure HttpResponse where
  status : Nat
  text : String
  json : Option Json

/-- What the transport send (`client.post`, lines 90-94) produced:
either a network-level httpx.RequestError, or an HTTP response. -/
inductive TransportOutcome where
  | requestError : String → TransportOutcome
  | httpOk : HttpResponse → TransportOutcome

namespace JsonRpcClient

/-- Lines 76-77: a caller-supplied id is used as given; when the caller
omits it, the freshly generated uuid string is used. -/
def resolveId (given : Option RequestId) (freshId : String) : RequestId :=
  given.getD (RequestId.str freshId)

/-- Lines 128-138: the part of `call` after the error-field check did
not raise: check for the result field, compare ids, return the result. -/
def afterErrorCheck (rid : RequestId) (rd : Json) : CallResult :=
  match pyContains rd "result" with
  | Except.error m => ⟨Except.error (RpcFailure.uncaught m), []⟩
  | Except.ok false => ⟨Except.error (RpcFailure.missingResult rd), []⟩
  | Except.ok true =>
    match pyAttrGet rd "id" with
    | Except.error m => ⟨Except.error (RpcFailure.uncaught m), []⟩
    | Except.ok idv =>
      let warns := if idEq idv rid then [] else [⟨idv, rid⟩]
      match pySubscript rd "result" with
      | Except.error m => ⟨Except.error (RpcFailure.uncaught m), warns⟩
      | Except.ok v => ⟨Except.ok v, warns⟩

/-- Lines 119-138: processing of the parsed response body.  The error
branch fires when the body contains a non-null `error`; building the
JsonRpcError evaluates `error_info.get("code")` first, which raises
AttributeError when the error value is not a dict. -/
def processBody (rid : RequestId) (rd : Json) : CallResult :=
  match pyContains rd "error" with
  | Except.error m => ⟨Except.error (RpcFailure.uncaught m), []⟩
  | Except.ok false => afterErrorCheck rid rd
  | Except.ok true =>
    match pySubscript rd "error" with
    | Except.error m => ⟨Except.error (RpcFailure.uncaught m), []⟩
    | Except.ok Json.null => afterErrorCheck rid rd
    | Except.ok (Json.obj efs) =>
      match pyAttrGet rd "id" with
      | Except.error m => ⟨Except.error (RpcFailure.uncaught m), []⟩
      | Except.ok idv =>
        ⟨Except.error (RpcFailure.protocolError
            (pyGet efs "code") (pyGet efs "message") (pyGet efs "data") idv), []⟩
    | Except.ok _ => ⟨Except.error (RpcFailure.uncaught "AttributeError"), []⟩

/-- `JsonRpcClient.call` (lines 53-138) as a function of the request
data, the generated fresh id, and the transport outcome.  A non-2xx
status makes `raise_for_status` raise, re-raised as HttpStatusError with
status, body text and method (lines 95-102); a RequestError is re-raised
as TransportError with the method name (lines 103-108); then the body is
parsed and processed. -/
def call (method : String) (params : Option Json) (given : Option RequestId)
    (freshId : String) (t : TransportOutcome) : CallResult :=
  let rid := resolveId given freshId
  match t with
  | TransportOutcome.requestError cause =>
    ⟨Except.error (RpcFailure.transportError method cause), []⟩
  | TransportOutcome.httpOk resp =>
    if resp.status < 200 ∨ 300 ≤ resp.status then
      ⟨Except.error (RpcFailure.httpStatusError method resp.status resp.text), []⟩
    else
      match resp.json with
      | none => ⟨Except.error (RpcFailure.malformedResponse resp.text), []⟩
      | some rd => processBody rid rd

/-- `JsonRpcClient.notify` (lines 140-188): send, raise on transport or
HTTP-status failure, otherwise return without touching the body. -/
def notify (method : String) (params : Option Json) (t : TransportOutcome) :
    Except RpcFailure Unit :=
  match t with
  | TransportOutcome.requestError cause =>
    Except.error (RpcFailure.transportError method cause)
  | TransportOutcome.httpOk resp =>
    if resp.status < 200 ∨ 300 ≤ resp.status then
      Except.error (RpcFailure.httpStatusError method resp.status resp.text)
    else
      Except.ok ()

/-- The request envelope built by `call` (lines 79-85): jsonrpc, method,
id, and params only when params is not None. -/
def callPayload (method : String) (params : Option Json) (rid : RequestId) :
    List (String × Json) :=
  [("jsonrpc", Json.str "2.0"), ("method", Json.str method),
   ("id", match rid with
          | RequestId.str s => Json.str s
          | RequestId.num n => Json.num n)] ++
  (match params with
   | some p => [("params", p)]
   | none => [])

/-- The notification envelope built by `notify` (lines 157-162): jsonrpc
and method, params only when not None, and no id field at all. -/
def notifyPayload (method : String) (params : Option Json) :
    List (String × Json) :=
  [("jsonrpc", Json.str "2.0"), ("method", Json.str method)] ++
  (match params with
   | some p => [("params", p)]
   | none => [])

end JsonRpcClient

/-
Transport-ownership life cycle.  An httpx.AsyncClient is modelled by a
numeric handle allocated from a world that records which handles have
been closed.  `aclose` on a handle records it closed.
-/

/-- The world of transport handles: the next fresh handle and the list
of handles on which `aclose` has been invoked. -/
structure World where
  nextId : Nat
  closed : List Nat

def newTransport (w : World) : Nat × World :=
  (w.nextId, ⟨w.nextId + 1, w.closed⟩)

def closeTransport (t : Nat) (w : World) : World :=
  ⟨w.nextId, t :: w.closed⟩

/-- The mutable fields of a JsonRpcClient instance (lines 28-30): the
stored httpx client (None or a handle) and the ownership flag. -/
structure ClientState where
  server_url : String
  httpx_client : Option Nat
  owns_client : Bool

namespace JsonRpcClient

/-- `__init__` (lines 18-30): `_owns_client` is set exactly when no
external httpx client was supplied. -/
def init (url : String) (ext : Option Nat) : ClientState :=
  ⟨url, ext, ext.isNone⟩

/-- `_get_client` (lines 32-35): return the stored client when present
(an httpx.AsyncClient object is always truthy), otherwise create a new
one without storing it. -/
def getClient (st : ClientState) (w : World) : Nat × World :=
  match st.httpx_client with
  | some t => (t, w)
  | none => newTransport w

/-- `close` (lines 37-43): close the stored client only when this
instance owns it, then clear the handle; otherwise a no-op. -/
def close (st : ClientState) (w : World) : ClientState × World :=
  match st.httpx_client with
  | some t =>
    if st.owns_client then ({ st with httpx_client := none }, closeTransport t w)
    else (st, w)
  | none => (st, w)

/-- `__aenter__` (lines 45-48): when owning and no client is stored yet,
create one and store it. -/
def aenter (st : ClientState) (w : World) : ClientState × World :=
  if st.owns_client && st.httpx_client.isNone then
    let p := newTransport w
    ({ st with httpx_client := some p.1 }, p.2)
  else (st, w)

/-- `__aexit__` (lines 50-51): invokes `close` once, on success and on
failure alike. -/
def aexit (st : ClientState) (w : World) : ClientState × World :=
  close st w

/-- The transport effect of one `call` (lines 87 and 109-111): fetch the
client via `_get_client`, perform the round trip, and in the `finally`
block close the client whenever `_owns_client` is set (the handle itself
is always truthy).  This runs on every path — success, HTTP error and
transport error — and does not modify `_httpx_client`. -/
def callEffect (st : ClientState) (w : World) : ClientState × World :=
  let p := getClient st w
  (st, if st.owns_client then closeTransport p.1 p.2 else p.2)

/-- The transport effect of one `notify` (lines 164 and 186-188) is the
same as that of `call`. -/
def notifyEffect (st : ClientState) (w : World) : ClientState × World :=
  callEffect st w

end JsonRpcClient

/-- One client-facing operation of the life cycle. -/
inductive Op where
  | callOp : Op
  | notifyOp : Op
  | closeOp : Op
  | aenterOp : Op
  | aexitOp : Op

def Op.step : Op → ClientState → World → ClientState × World
  | Op.callOp, st, w => JsonRpcClient.callEffect st w
  | Op.notifyOp, st, w => JsonRpcClient.notifyEffect st w
  | Op.closeOp, st, w => JsonRpcClient.close st w
  | Op.aenterOp, st, w => JsonRpcClient.aenter st w
  | Op.aexitOp, st, w => JsonRpcClient.aexit st w

/-- Run a sequence of client operations from a given state and world. -/
def runOps : List Op → ClientState → World → ClientState × World
  | [], st, w => (st, w)
  | op :: rest, st, w =>
    let p := op.step st w
    runOps rest p.1 p.2

/-
Id generation: `str(uuid.uuid4())` (a2a_client.py line 77).  CPython's
uuid.uuid4 draws 16 random bytes, forces the variant bits (bits 62-63
become 10) and the version nibble (bits 76-79 become 0100), and formats
the resulting 128-bit integer as 32 lowercase hex digits with dashes
after digits 8, 12, 16 and 20.  The random draw is the only
non-deterministic input and is threaded as a parameter. -/

def hexAlphabet : List Char :=
  "0123456789abcdef".data

def hexChar (d : Nat) : Char :=
  hexAlphabet.getD d '0'

/-- The last `k` base-16 digits of `n`, most significant first; for
`n < 16 ^ k` this is exactly Python `'%0*x' % (k, n)`. -/
def hexDigitsOf : Nat → Nat → List Char
  | 0, _ => []
  | k + 1, n => hexDigitsOf k (n / 16) ++ [hexChar (n % 16)]

/-- `'%032x' % n`, the 32-digit zero-padded lowercase hex form. -/
def toHex32 (n : Nat) : List Char :=
  hexDigitsOf 32 n

/-- Insert the four dashes of the canonical 8-4-4-4-12 UUID layout. -/
def dashFormat (h : List Char) : List Char :=
  h.take 8 ++ '-' :: ((h.drop 8).take 4 ++ '-' :: ((h.drop 12).take 4 ++
    '-' :: ((h.drop 16).take 4 ++ '-' :: h.drop 20)))

/-- The 128-bit integer of uuid.UUID(bytes=r, version=4): reduce the
draw to 128 bits, clear bits 62-63 and set bit 63 (RFC 4122 variant),
clear bits 76-79 and set the version nibble to 4. -/
def uuid4Int (r : Nat) : Nat :=
  (((r % 2 ^ 128 &&& (2 ^ 128 - 1 - (0xc000 <<< 48))) ||| (0x8000 <<< 48)) &&&
    (2 ^ 128 - 1 - (0xf000 <<< 64))) ||| (4 <<< 76)

/-- `str(uuid.uuid4())` for the 16-byte draw `r`. -/
def uuidStr (r : Nat) : String :=
  String.mk (dashFormat (toHex32 (uuid4Int r)))

/-- The id generated by the i-th `call` whose caller omitted `id`, for a
stream `rand` of 16-byte os.urandom draws. -/
def genId (rand : Nat → Nat) (i : Nat) : String :=
  uuidStr (rand i)

/-
Helper lemmas.
-/

theorem getField_none_any : ∀ (fs : List (String × Json)) (k : String),
    getField fs k = none → fs.any (fun p => p.1 == k) = false
  | [], _, _ => rfl
  | (k1, v1) :: rest, k, h => by
    by_cases hk : k1 = k
    · simp [getField, hk] at h
    · simp only [getField, if_neg hk] at h
      simp [hk, getField_none_any rest k h]

theorem getField_some_any : ∀ (fs : List (String × Json)) (k : String) (v : Json),
    getField fs k = some v → fs.any (fun p => p.1 == k) = true
  | [], _, _, h => by simp [getField] at h
  | (k1, v1) :: rest, k, v, h => by
    by_cases hk : k1 = k
    · simp [hk]
    · simp only [getField, if_neg hk] at h
      simp [hk, getField_some_any rest k v h]

theorem idEq_none (rid : RequestId) : idEq none rid = false := by
  cases rid <;> rfl

theorem pyGet_of_getField_none {fs : List (String × Json)} {k : String}
    (h : getField fs k = none) : pyGet fs k = none := by
  simp [pyGet, h]

/-- When the body is a dict with a `result` field and its `error` field
is absent or null, processing returns the result value, with the id
warning exactly when the response id does not equal the request id. -/
theorem processBody_success (rid : RequestId) (fs : List (String × Json)) (v : Json)
    (herr : getField fs "error" = none ∨ getField fs "error" = some Json.null)
    (hres : getField fs "result" = some v) :
    JsonRpcClient.processBody rid (Json.obj fs) =
      ⟨Except.ok v,
       if idEq (pyGet fs "id") rid then [] else [⟨pyGet fs "id", rid⟩]⟩ := by
  have hafter : JsonRpcClient.afterErrorCheck rid (Json.obj fs) =
      ⟨Except.ok v,
       if idEq (pyGet fs "id") rid then [] else [⟨pyGet fs "id", rid⟩]⟩ := by
    simp only [JsonRpcClient.afterErrorCheck, pyContains,
      getField_some_any fs "result" v hres, pyAttrGet, pySubscript, hres]
  rcases herr with h | h
  · simp only [JsonRpcClient.processBody, pyContains, getField_none_any fs "error" h]
    exact hafter
  · simp only [JsonRpcClient.processBody, pyContains,
      getField_some_any fs "error" Json.null h, pySubscript, h]
    exact hafter

/-
Claim theorems.
-/

/-- C2: for every call whose HTTP response has a non-2xx status, `call`
raises HttpStatusError carrying the status code, the response body text
and the method name, whatever the body contains — the equality holds for
every body text and every parse result, so the body is never inspected
and status takes precedence over a valid-looking success envelope. -/
theorem C2_non2xx_raises_http_status_error (method : String) (params : Option Json)
    (given : Option RequestId) (freshId : String) (resp : HttpResponse)
    (h : resp.status < 200 ∨ 300 ≤ resp.status) :
    JsonRpcClient.call method params given freshId (TransportOutcome.httpOk resp) =
      ⟨Except.error (RpcFailure.httpStatusError method resp.status resp.text), []⟩ := by
  simp only [JsonRpcClient.call, if_pos h]

/-- C2 witness: a 500 response whose body is a syntactically valid
success envelope still raises HttpStatusError. -/
theorem C2_witness :
    JsonRpcClient.call "tasks/send" none (some (RequestId.str "id1")) "f"
      (TransportOutcome.httpOk
        ⟨500, "\x7b\"result\": 1\x7d", some (Json.obj [("result", Json.num 1)])⟩) =
      ⟨Except.error (RpcFailure.httpStatusError "tasks/send" 500 "\x7b\"result\": 1\x7d"), []⟩ :=
  C2_non2xx_raises_http_status_error "tasks/send" none (some (RequestId.str "id1")) "f"
    ⟨500, "\x7b\"result\": 1\x7d", some (Json.obj [("result", Json.num 1)])⟩ (by decide)

/-- C3: when the transport returns a 2xx response whose body is a
well-formed success envelope (a dict whose `error` field is absent or
null and which carries a `result` field), `call` returns exactly the
envelope's `result` payload. -/
theorem C3_call_returns_result_payload (method : String) (params : Option Json)
    (given : Option RequestId) (freshId : String) (resp : HttpResponse)
    (fs : List (String × Json)) (v : Json)
    (h2 : 200 ≤ resp.status) (h3 : resp.status < 300)
    (hj : resp.json = some (Json.obj fs))
    (herr : getField fs "error" = none ∨ getField fs "error" = some Json.null)
    (hres : getField fs "result" = some v) :
    (JsonRpcClient.call method params given freshId (TransportOutcome.httpOk resp)).outcome =
      Except.ok v := by
  have hord : ¬(resp.status < 200 ∨ 300 ≤ resp.status) := by omega
  simp only [JsonRpcClient.call, if_neg hord, hj,
    processBody_success (JsonRpcClient.resolveId given freshId) fs v herr hres]

/-- C3 witness: the spec scenario — `call("ping", None)` against a server
returning a matching-id success envelope with result `"pong"` returns
`"pong"`. -/
theorem C3_witness :
    (JsonRpcClient.call "ping" none none "uid-1"
      (TransportOutcome.httpOk ⟨200, "body", some (Json.obj
        [("jsonrpc", Json.str "2.0"), ("id", Json.str "uid-1"),
         ("result", Json.str "pong")])⟩)).outcome = Except.ok (Json.str "pong") :=
  C3_call_returns_result_payload "ping" none none "uid-1"
    ⟨200, "body", some (Json.obj
      [("jsonrpc", Json.str "2.0"), ("id", Json.str "uid-1"),
       ("result", Json.str "pong")])⟩
    [("jsonrpc", Json.str "2.0"), ("id", Json.str "uid-1"),
     ("result", Json.str "pong")]
    (Json.str "pong") (by decide) (by decide) rfl (Or.inl rfl) rfl

/-- C6: a 2xx success envelope whose id does not equal the request id is
non-fatal — `call` emits exactly one id-mismatch warning event carrying
both ids and still returns the `result` payload. -/
theorem C6_id_mismatch_warns_and_returns (method : String) (params : Option Json)
    (given : Option RequestId) (freshId : String) (resp : HttpResponse)
    (fs : List (String × Json)) (v : Json)
    (h2 : 200 ≤ resp.status) (h3 : resp.status < 300)
    (hj : resp.json = some (Json.obj fs))
    (herr : getField fs "error" = none ∨ getField fs "error" = some Json.null)
    (hres : getField fs "result" = some v)
    (hmis : idEq (pyGet fs "id") (JsonRpcClient.resolveId given freshId) = false) :
    JsonRpcClient.call method params given freshId (TransportOutcome.httpOk resp) =
      ⟨Except.ok v, [⟨pyGet fs "id", JsonRpcClient.resolveId given freshId⟩]⟩ := by
  have hord : ¬(resp.status < 200 ∨ 300 ≤ resp.status) := by omega
  simp only [JsonRpcClient.call, if_neg hord, hj,
    processBody_success (JsonRpcClient.resolveId given freshId) fs v herr hres, hmis,
    Bool.false_eq_true, if_false]

/-- C6 witness: a success envelope whose id `"other"` differs from the
request id `"id1"` yields the result together with one warning. -/
theorem C6_witness :
    JsonRpcClient.call "m" none (some (RequestId.str "id1")) "f"
      (TransportOutcome.httpOk ⟨200, "body", some (Json.obj
        [("id", Json.str "other"), ("result", Json.num 3)])⟩) =
      ⟨Except.ok (Json.num 3),
       [⟨some (Json.str "other"), RequestId.str "id1"⟩]⟩ :=
  C6_id_mismatch_warns_and_returns "m" none (some (RequestId.str "id1")) "f"
    ⟨200, "body", some (Json.obj [("id", Json.str "other"), ("result", Json.num 3)])⟩
    [("id", Json.str "other"), ("result", Json.num 3)] (Json.num 3)
    (by decide) (by decide) rfl (Or.inl rfl) rfl rfl

/-- C8: a 2xx response whose body is not parseable as JSON raises
MalformedResponseError carrying the raw response body text. -/
theorem C8_unparseable_body_raises_malformed (method : String) (params : Option Json)
    (given : Option RequestId) (freshId : String) (resp : HttpResponse)
    (h2 : 200 ≤ resp.status) (h3 : resp.status < 300)
    (hj : resp.json = none) :
    JsonRpcClient.call method params given freshId (TransportOutcome.httpOk resp) =
      ⟨Except.error (RpcFailure.malformedResponse resp.text), []⟩ := by
  have hord : ¬(resp.status < 200 ∨ 300 ≤ resp.status) := by omega
  simp only [JsonRpcClient.call, if_neg hord, hj]

/-- C8 witness: a 200 response with the unparseable body `"not json"`
raises MalformedResponseError retaining that text. -/
theorem C8_witness :
    JsonRpcClient.call "m" none (some (RequestId.str "id1")) "f"
      (TransportOutcome.httpOk ⟨200, "not json", none⟩) =
      ⟨Except.error (RpcFailure.malformedResponse "not json"), []⟩ :=
  C8_unparseable_body_raises_malformed "m" none (some (RequestId.str "id1")) "f"
    ⟨200, "not json", none⟩ (by decide) (by decide) rfl

/-- C10: a 2xx success envelope with `result` but no `id` field at all
still returns the `result` payload through the same warning path as a
mismatched id: the absent id (Python None) compares unequal to the
request id, one warning event is emitted, and no error is raised. -/
theorem C10_missing_response_id_warns_and_returns (method : String) (params : Option Json)
    (given : Option RequestId) (freshId : String) (resp : HttpResponse)
    (fs : List (String × Json)) (v : Json)
    (h2 : 200 ≤ resp.status) (h3 : resp.status < 300)
    (hj : resp.json = some (Json.obj fs))
    (herr : getField fs "error" = none ∨ getField fs "error" = some Json.null)
    (hres : getField fs "result" = some v)
    (hid : getField fs "id" = none) :
    JsonRpcClient.call method params given freshId (TransportOutcome.httpOk resp) =
      ⟨Except.ok v, [⟨none, JsonRpcClient.resolveId given freshId⟩]⟩ := by
  have hord : ¬(resp.status < 200 ∨ 300 ≤ resp.status) := by omega
  have hp : pyGet fs "id" = none := pyGet_of_getField_none hid
  simp only [JsonRpcClient.call, if_neg hord, hj,
    processBody_success (JsonRpcClient.resolveId given freshId) fs v herr hres, hp,
    idEq_none, Bool.false_eq_true, if_false]

/-- C10 witness: a success envelope lacking `id` yields the result and a
warning whose response id is None. -/
theorem C10_witness :
    JsonRpcClient.call "m" none (some (RequestId.str "id1")) "f"
      (TransportOutcome.httpOk ⟨200, "body", some (Json.obj
        [("jsonrpc", Json.str "2.0"), ("result", Json.num 3)])⟩) =
      ⟨Except.ok (Json.num 3), [⟨none, RequestId.str "id1"⟩]⟩ :=
  C10_missing_response_id_warns_and_returns "m" none (some (RequestId.str "id1")) "f"
    ⟨200, "body", some (Json.obj [("jsonrpc", Json.str "2.0"), ("result", Json.num 3)])⟩
    [("jsonrpc", Json.str "2.0"), ("result", Json.num 3)] (Json.num 3)
    (by decide) (by decide) rfl (Or.inl rfl) rfl rfl

/-- C1 counterexample: the claim says every body containing a non-null
`error` field raises ProtocolError carrying code/message/data/id.  The
body `{"result": 1, "error": 5}` contains the non-null error `5`, yet
`call` does not raise ProtocolError: building the JsonRpcError evaluates
`error_info.get("code")` on the integer `5`, which raises AttributeError
(a2a_client.py line 122). -/
theorem C1_counterexample :
    getField [("result", Json.num 1), ("error", Json.num 5)] "error" =
      some (Json.num 5) ∧
    (JsonRpcClient.call "tasks/send" none (some (RequestId.str "id1")) "f"
      (TransportOutcome.httpOk ⟨200, "raw",
        some (Json.obj [("result", Json.num 1), ("error", Json.num 5)])⟩)).raisedProtocol
      = false ∧
    (JsonRpcClient.call "tasks/send" none (some (RequestId.str "id1")) "f"
      (TransportOutcome.httpOk ⟨200, "raw",
        some (Json.obj [("result", Json.num 1), ("error", Json.num 5)])⟩)).outcome
      = Except.error (RpcFailure.uncaught "AttributeError") :=
  ⟨rfl, rfl, rfl⟩

/-- C1 (amended): `call` checks the `error` field before the `result`
field.  A body whose non-null `error` field is a JSON object raises
ProtocolError carrying its code, message, data and the response's id
(so a body containing both `result` and such an `error` also raises
ProtocolError — error wins); a body whose non-null `error` field is not
an object raises an uncaught AttributeError, still without reaching the
missing-result check; MalformedResponseError for a missing result field
arises only when the body's `error` field is absent or null. -/
theorem C1_error_wins_over_result (method : String) (params : Option Json)
    (given : Option RequestId) (freshId : String) (resp : HttpResponse)
    (fs : List (String × Json)) :
    (∀ efs : List (String × Json),
      200 ≤ resp.status → resp.status < 300 →
      resp.json = some (Json.obj fs) →
      getField fs "error" = some (Json.obj efs) →
      (JsonRpcClient.call method params given freshId
          (TransportOutcome.httpOk resp)).outcome =
        Except.error (RpcFailure.protocolError (pyGet efs "code")
          (pyGet efs "message") (pyGet efs "data") (pyGet fs "id"))) ∧
    (∀ e : Json,
      200 ≤ resp.status → resp.status < 300 →
      resp.json = some (Json.obj fs) →
      getField fs "error" = some e → e ≠ Json.null →
      (∀ efs : List (String × Json), e ≠ Json.obj efs) →
      (JsonRpcClient.call method params given freshId
          (TransportOutcome.httpOk resp)).outcome =
        Except.error (RpcFailure.uncaught "AttributeError")) ∧
    (∀ b : Json,
      resp.json = some (Json.obj fs) →
      (JsonRpcClient.call method params given freshId
          (TransportOutcome.httpOk resp)).outcome =
        Except.error (RpcFailure.missingResult b) →
      getField fs "error" = none ∨ getField fs "error" = some Json.null) := by
  refine ⟨?_, ?_, ?_⟩
  · intro efs h2 h3 hj herr
    have hord : ¬(resp.status < 200 ∨ 300 ≤ resp.status) := by omega
    simp only [JsonRpcClient.call, if_neg hord, hj, JsonRpcClient.processBody,
      pyContains, getField_some_any fs "error" (Json.obj efs) herr,
      pySubscript, herr, pyAttrGet]
  · intro e h2 h3 hj herr hnull hobj
    have hord : ¬(resp.status < 200 ∨ 300 ≤ resp.status) := by omega
    simp only [JsonRpcClient.call, if_neg hord, hj, JsonRpcClient.processBody,
      pyContains, getField_some_any fs "error" e herr, pySubscript, herr]
  · intro b hj hout
    by_cases hord : resp.status < 200 ∨ 300 ≤ resp.status
    · simp only [JsonRpcClient.call, if_pos hord] at hout
      exact absurd hout (by simp)
    · cases herr : getField fs "error" with
      | none => exact Or.inl rfl
      | some e =>
        cases e with
        | null => exact Or.inr rfl
        | obj efs =>
          simp only [JsonRpcClient.call, if_neg hord, hj, JsonRpcClient.processBody,
            pyContains, getField_some_any fs "error" (Json.obj efs) herr,
            pySubscript, herr, pyAttrGet] at hout
          exact absurd hout (by simp)
        | bool v =>
          simp only [JsonRpcClient.call, if_neg hord, hj, JsonRpcClient.processBody,
            pyContains, getField_some_any fs "error" (Json.bool v) herr,
            pySubscript, herr] at hout
          exact absurd hout (by simp)
        | num v =>
          simp only [JsonRpcClient.call, if_neg hord, hj, JsonRpcClient.processBody,
            pyContains, getField_some_any fs "error" (Json.num v) herr,
            pySubscript, herr] at hout
          exact absurd hout (by simp)
        | str v =>
          simp only [JsonRpcClient.call, if_neg hord, hj, JsonRpcClient.processBody,
            pyContains, getField_some_any fs "error" (Json.str v) herr,
            pySubscript, herr] at hout
          exact absurd hout (by simp)
        | arr v =>
          simp only [JsonRpcClient.call, if_neg hord, hj, JsonRpcClient.processBody,
            pyContains, getField_some_any fs "error" (Json.arr v) herr,
            pySubscript, herr] at hout
          exact absurd hout (by simp)

/-- C1 witness: the spec scenario — an envelope with the error object
`{"code": -32601, "message": "Method not found"}` (even alongside a
`result` field) raises ProtocolError carrying code -32601. -/
theorem C1_witness :
    (JsonRpcClient.call "fail" none (some (RequestId.str "id1")) "f"
      (TransportOutcome.httpOk ⟨200, "raw", some (Json.obj
        [("id", Json.str "id1"), ("result", Json.num 9),
         ("error", Json.obj [("code", Json.num (-32601)),
                             ("message", Json.str "Method not found")])])⟩)).outcome =
      Except.error (RpcFailure.protocolError (some (Json.num (-32601)))
        (some (Json.str "Method not found")) none (some (Json.str "id1"))) :=
  (C1_error_wins_over_result "fail" none (some (RequestId.str "id1")) "f"
    ⟨200, "raw", some (Json.obj
      [("id", Json.str "id1"), ("result", Json.num 9),
       ("error", Json.obj [("code", Json.num (-32601)),
                           ("message", Json.str "Method not found")])])⟩
    [("id", Json.str "id1"), ("result", Json.num 9),
     ("error", Json.obj [("code", Json.num (-32601)),
                         ("message", Json.str "Method not found")])]).1
    [("code", Json.num (-32601)), ("message", Json.str "Method not found")]
    (by decide) (by decide) rfl rfl

/-- C7: `notify` omits the `id` field from its envelope entirely; on any
2xx response it returns successfully whatever the body text or its
parseability (the body is never read); and its only failure outcomes are
TransportError and HttpStatusError, each carrying the method name. -/
theorem C7_notify_contract :
    (∀ (method : String) (params : Option Json),
      getField (JsonRpcClient.notifyPayload method params) "id" = none) ∧
    (∀ (method : String) (params : Option Json) (resp : HttpResponse),
      200 ≤ resp.status → resp.status < 300 →
      JsonRpcClient.notify method params (TransportOutcome.httpOk resp) =
        Except.ok ()) ∧
    (∀ (method : String) (params : Option Json) (t : TransportOutcome)
       (e : RpcFailure),
      JsonRpcClient.notify method params t = Except.error e →
      (∃ cause, e = RpcFailure.transportError method cause) ∨
      (∃ status text, e = RpcFailure.httpStatusError method status text)) := by
  refine ⟨?_, ?_, ?_⟩
  · intro method params
    cases params <;> rfl
  · intro method params resp h2 h3
    have hord : ¬(resp.status < 200 ∨ 300 ≤ resp.status) := by omega
    simp only [JsonRpcClient.notify, if_neg hord]
  · intro method params t e h
    cases t with
    | requestError cause =>
      simp only [JsonRpcClient.notify, Except.error.injEq] at h
      exact Or.inl ⟨cause, h.symm⟩
    | httpOk resp =>
      by_cases hord : resp.status < 200 ∨ 300 ≤ resp.status
      · simp only [JsonRpcClient.notify, if_pos hord, Except.error.injEq] at h
        exact Or.inr ⟨resp.status, resp.text, h.symm⟩
      · simp only [JsonRpcClient.notify, if_neg hord] at h
        exact absurd h (by simp)

/-- C7 witness: a notification answered by a well-formed 200 response
with an empty body succeeds, and the notification envelope has no id. -/
theorem C7_witness :
    JsonRpcClient.notify "m" none (TransportOutcome.httpOk ⟨200, "", none⟩) =
      Except.ok () ∧
    getField (JsonRpcClient.notifyPayload "m" none) "id" = none :=
  ⟨C7_notify_contract.2.1 "m" none ⟨200, "", none⟩ (by decide) (by decide),
   C7_notify_contract.1 "m" none⟩

/-- Life-cycle invariant behind C5: with a borrowed (externally
supplied) transport the ownership flag stays false, the stored handle
stays the external one, and no operation ever changes the world — in
particular no handle is ever closed. -/
theorem runOps_borrowed (t : Nat) : ∀ (ops : List Op) (st : ClientState) (w : World),
    st.owns_client = false → st.httpx_client = some t →
    (runOps ops st w).1.owns_client = false ∧
    (runOps ops st w).1.httpx_client = some t ∧
    (runOps ops st w).2 = w
  | [], st, w, h1, h2 => ⟨h1, h2, rfl⟩
  | op :: rest, st, w, h1, h2 => by
    have hstep : op.step st w = (st, w) := by
      cases op <;>
        simp [Op.step, JsonRpcClient.callEffect, JsonRpcClient.notifyEffect,
          JsonRpcClient.close, JsonRpcClient.aenter, JsonRpcClient.aexit,
          JsonRpcClient.getClient, h1, h2]
    simp only [runOps, hstep]
    exact runOps_borrowed t rest st w h1 h2

/-- C5: a client constructed with an externally supplied transport never
marks itself as owner, and no sequence of call / notify / close /
scope-enter / scope-exit operations ever closes that transport (every
path of call and notify runs the same `finally` effect, so success and
error paths are covered alike). -/
theorem C5_external_transport_never_closed (url : String) (t : Nat) (w : World)
    (ops : List Op) (hopen : t ∉ w.closed) :
    (JsonRpcClient.init url (some t)).owns_client = false ∧
    (runOps ops (JsonRpcClient.init url (some t)) w).1.owns_client = false ∧
    t ∉ (runOps ops (JsonRpcClient.init url (some t)) w).2.closed := by
  have h := runOps_borrowed t ops (JsonRpcClient.init url (some t)) w rfl rfl
  exact ⟨rfl, h.1, by rw [h.2.2]; exact hopen⟩

/-- C5 witness: a concrete run — borrowed transport 5, operations
call; notify; close; enter; call; exit — leaves transport 5 open and the
client a non-owner throughout. -/
theorem C5_witness :
    (JsonRpcClient.init "http://localhost:10002" (some 5)).owns_client = false ∧
    (runOps [Op.callOp, Op.notifyOp, Op.closeOp, Op.aenterOp, Op.callOp, Op.aexitOp]
      (JsonRpcClient.init "http://localhost:10002" (some 5)) ⟨6, []⟩).1.owns_client
      = false ∧
    5 ∉ (runOps [Op.callOp, Op.notifyOp, Op.closeOp, Op.aenterOp, Op.callOp, Op.aexitOp]
      (JsonRpcClient.init "http://localhost:10002" (some 5)) ⟨6, []⟩).2.closed :=
  C5_external_transport_never_closed "http://localhost:10002" 5 ⟨6, []⟩
    [Op.callOp, Op.notifyOp, Op.closeOp, Op.aenterOp, Op.callOp, Op.aexitOp]
    (by decide)

/-- C4 (code bug): the claim — and the comment at a2a_client.py line 110
("if client was created in _get_client") — say the transport a scoped
owning client creates at `__aenter__` stays open across the calls made
inside the scope and is released only at close/exit.  The code's
`finally` block closes on `self._owns_client and client`, which is also
true for the scope-owned stored client: after entering the scope (which
stores fresh transport 0, still open), the very first call closes
transport 0 while the scope is still active. -/
theorem C4_scoped_transport_closed_by_first_call :
    (JsonRpcClient.aenter (JsonRpcClient.init "http://localhost:10002" none)
      ⟨0, []⟩).1.httpx_client = some 0 ∧
    0 ∉ (JsonRpcClient.aenter (JsonRpcClient.init "http://localhost:10002" none)
      ⟨0, []⟩).2.closed ∧
    0 ∈ (JsonRpcClient.callEffect
      (JsonRpcClient.aenter (JsonRpcClient.init "http://localhost:10002" none) ⟨0, []⟩).1
      (JsonRpcClient.aenter (JsonRpcClient.init "http://localhost:10002" none) ⟨0, []⟩).2).2.closed := by
  refine ⟨rfl, by decide, by decide⟩

/-
Lemmas for the uuid4 string form: the 32-digit hex rendering is
injective below 2^128, the dash layout is invertible, so distinct masked
128-bit values give distinct uuid strings.
-/

theorem land_lt_two_pow {x y n : Nat} (hx : x < 2 ^ n) (hy : y < 2 ^ n) :
    x &&& y < 2 ^ n :=
  Nat.bitwise_lt hx hy

theorem lor_lt_two_pow {x y n : Nat} (hx : x < 2 ^ n) (hy : y < 2 ^ n) :
    x ||| y < 2 ^ n :=
  Nat.bitwise_lt hx hy

theorem uuid4Int_lt (r : Nat) : uuid4Int r < 2 ^ 128 := by
  unfold uuid4Int
  apply lor_lt_two_pow
  · apply land_lt_two_pow
    · apply lor_lt_two_pow
      · apply land_lt_two_pow
        · exact Nat.mod_lt _ (by norm_num)
        · decide
      · decide
    · decide
  · decide

theorem hexDigitsOf_length : ∀ (k n : Nat), (hexDigitsOf k n).length = k
  | 0, _ => rfl
  | k + 1, n => by simp [hexDigitsOf, hexDigitsOf_length k]

theorem hexChar_inj {a b : Nat} (ha : a < 16) (hb : b < 16)
    (h : hexChar a = hexChar b) : a = b := by
  have key : ∀ (x y : Fin 16), hexChar x.val = hexChar y.val → x = y := by decide
  exact congrArg Fin.val (key ⟨a, ha⟩ ⟨b, hb⟩ h)

theorem hexDigitsOf_inj : ∀ (k n m : Nat), n < 16 ^ k → m < 16 ^ k →
    hexDigitsOf k n = hexDigitsOf k m → n = m
  | 0, n, m, hn, hm, _ => by omega
  | k + 1, n, m, hn, hm, h => by
    simp only [hexDigitsOf] at h
    have hlen : (hexDigitsOf k (n / 16)).length = (hexDigitsOf k (m / 16)).length := by
      rw [hexDigitsOf_length, hexDigitsOf_length]
    have hparts := List.append_inj h hlen
    have hd : n / 16 = m / 16 := by
      apply hexDigitsOf_inj k (n / 16) (m / 16) ?_ ?_ hparts.1
      · have hp : n < 16 ^ k * 16 := by rw [← pow_succ]; exact hn
        omega
      · have hp : m < 16 ^ k * 16 := by rw [← pow_succ]; exact hm
        omega
    have hc : hexChar (n % 16) = hexChar (m % 16) := by
      have := hparts.2
      simpa using this
    have hmod : n % 16 = m % 16 :=
      hexChar_inj (Nat.mod_lt _ (by norm_num)) (Nat.mod_lt _ (by norm_num)) hc
    omega

theorem hexChar_ne_dash (d : Nat) : hexChar d ≠ '-' := by
  by_cases h : d < 16
  · have key : ∀ (x : Fin 16), hexChar x.val ≠ '-' := by decide
    exact key ⟨d, h⟩
  · unfold hexChar
    rw [List.getD_eq_default]
    · decide
    · simp only [hexAlphabet, List.length]
      omega

theorem mem_hexDigitsOf : ∀ (k n : Nat) (c : Char), c ∈ hexDigitsOf k n → c ≠ '-'
  | 0, _, c, h => by simp [hexDigitsOf] at h
  | k + 1, n, c, h => by
    simp only [hexDigitsOf, List.mem_append, List.mem_singleton] at h
    rcases h with h | h
    · exact mem_hexDigitsOf k (n / 16) c h
    · rw [h]
      exact hexChar_ne_dash _

theorem filter_no_dash {l : List Char} (hl : ∀ c ∈ l, c ≠ '-') :
    l.filter (fun c => c != '-') = l := by
  apply List.filter_eq_self.mpr
  intro c hc
  simpa using hl c hc

theorem dashFormat_undash (l : List Char) (hl : ∀ c ∈ l, c ≠ '-') :
    (dashFormat l).filter (fun c => c != '-') = l := by
  have hsub : ∀ (s : List Char), s ⊆ l → s.filter (fun c => c != '-') = s :=
    fun s hs => filter_no_dash (fun c hc => hl c (hs hc))
  have h8 := hsub (l.take 8) (List.take_subset 8 l)
  have hA := hsub ((l.drop 8).take 4)
    (fun c hc => List.drop_subset 8 l (List.take_subset 4 (l.drop 8) hc))
  have hB := hsub ((l.drop 12).take 4)
    (fun c hc => List.drop_subset 12 l (List.take_subset 4 (l.drop 12) hc))
  have hC := hsub ((l.drop 16).take 4)
    (fun c hc => List.drop_subset 16 l (List.take_subset 4 (l.drop 16) hc))
  have hD := hsub (l.drop 20) (List.drop_subset 20 l)
  simp only [dashFormat, List.filter_append, List.filter_cons, h8, hA, hB, hC, hD]
  norm_num
  have e20 : List.take 4 (List.drop 16 l) ++ List.drop 20 l = List.drop 16 l := by
    have h0 := List.drop_take_append_drop l 16 4
    norm_num at h0
    exact h0
  have e16 : List.take 4 (List.drop 12 l) ++ List.drop 16 l = List.drop 12 l := by
    have h0 := List.drop_take_append_drop l 12 4
    norm_num at h0
    exact h0
  have e12 : List.take 4 (List.drop 8 l) ++ List.drop 12 l = List.drop 8 l := by
    have h0 := List.drop_take_append_drop l 8 4
    norm_num at h0
    exact h0
  rw [e20, e16, e12, List.take_append_drop]

theorem uuidStr_inj {r1 r2 : Nat} (h : uuidStr r1 = uuidStr r2) :
    uuid4Int r1 = uuid4Int r2 := by
  have hdata : dashFormat (toHex32 (uuid4Int r1)) = dashFormat (toHex32 (uuid4Int r2)) :=
    congrArg String.data h
  have h1 := dashFormat_undash (toHex32 (uuid4Int r1))
    (fun c hc => mem_hexDigitsOf 32 (uuid4Int r1) c hc)
  have h2 := dashFormat_undash (toHex32 (uuid4Int r2))
    (fun c hc => mem_hexDigitsOf 32 (uuid4Int r2) c hc)
  have hx : toHex32 (uuid4Int r1) = toHex32 (uuid4Int r2) := by
    rw [← h1, ← h2, hdata]
  have h128 : (16 : Nat) ^ 32 = 2 ^ 128 := by norm_num
  exact hexDigitsOf_inj 32 _ _ (h128 ▸ uuid4Int_lt r1) (h128 ▸ uuid4Int_lt r2) hx

theorem uuidStr_ne_empty (r : Nat) : uuidStr r ≠ "" := by
  intro h
  have hdata : dashFormat (toHex32 (uuid4Int r)) = [] := congrArg String.data h
  simp [dashFormat] at hdata

/-- C9: when the caller omits `id`, the client uses `str(uuid.uuid4())`:
for any stream of 16-byte random draws whose masked (variant- and
version-forced) 128-bit values are pairwise distinct over the first N
draws, the N generated identifiers are non-empty strings and pairwise
distinct; and `call` resolves an omitted id to exactly the generated
string. -/
theorem C9_generated_ids_nonempty_distinct (rand : Nat → Nat) (N : Nat)
    (hdraws : ∀ i j, i < N → j < N → i ≠ j →
      uuid4Int (rand i) ≠ uuid4Int (rand j)) :
    (∀ i, i < N → genId rand i ≠ "") ∧
    (∀ i j, i < N → j < N → i ≠ j → genId rand i ≠ genId rand j) ∧
    (∀ s, JsonRpcClient.resolveId none s = RequestId.str s) :=
  ⟨fun i _ => uuidStr_ne_empty (rand i),
   fun i j hi hj hij hEq => hdraws i j hi hj hij (uuidStr_inj hEq),
   fun _ => rfl⟩

/-- C9 witness: two draws with distinct masked values give two distinct
non-empty ids. -/
theorem C9_witness :
    genId (fun k => k) 0 ≠ genId (fun k => k) 1 ∧
    genId (fun k => k) 0 ≠ "" := by
  have hd : ∀ i j, i < 2 → j < 2 → i ≠ j →
      uuid4Int ((fun k => k) i) ≠ uuid4Int ((fun k => k) j) := by
    intro i j hi hj hij
    interval_cases i <;> interval_cases j <;>
      first
      | exact absurd rfl hij
      | decide
  have h := C9_generated_ids_nonempty_distinct (fun k => k) 2 hd
  exact ⟨h.2.1 0 1 (by omega) (by omega) (by omega), h.1 0 (by omega)⟩
